import Mathlib

/-!
Verification of the IT-events bot event store, classifier and extractor.

Shallow embedding of the python sources:
  * `database.py`   — the `Database` class over SQLAlchemy models
    (`Event`, `User`, `EventRegistration`, `Resource`, `Admin`);
    tables become Lean lists, a session-per-call method becomes a pure
    function from a `DB` state to a result and a new `DB` state,
    SQLAlchemy autoincrement ids become explicit `next…Id` counters,
    and `DateTime` values become rationals (hours on an abstract axis,
    so `timedelta(hours=h)` is `+ h`).
  * `event_classifier.py` — `EventClassifier.is_relevant_event` and its
    keyword / Ollama backends; text is `List Char`, python floats are ℚ.
  * `event_parser.py` — `EventParser.parse_resource`; the fetch/parse
    collaborator outcome is passed in as an `Except` value.
-/

namespace ITEventsBot

/-- `events` table row (`database.py`, class `Event`): `notified` defaults
to `False` on insert. -/
structure Event where
  id : Nat
  resource_id : Nat
  title : String
  description : Option String
  event_date : ℚ
  location : Option String
  url : Option String
  notified : Bool
deriving DecidableEq, Repr

/-- `users` table row (`database.py`, class `User`): `is_subscribed`
defaults to `True` on insert. -/
structure User where
  id : Nat
  telegram_id : Int
  username : Option String
  first_name : Option String
  last_name : Option String
  is_subscribed : Bool
deriving DecidableEq, Repr

/-- `event_registrations` table row (`database.py`,
class `EventRegistration`): both reminder flags default to `False`. -/
structure Registration where
  id : Nat
  user_id : Nat
  event_id : Nat
  reminder_1day_sent : Bool
  reminder_1hour_sent : Bool
deriving DecidableEq, Repr

/-- `resources` table row (`database.py`, class `Resource`). -/
structure Resource where
  id : Nat
  name : String
  url : String
  type : String
  is_active : Bool
deriving DecidableEq, Repr

/-- The whole persistent store owned by the `Database` class: one list
per table plus the autoincrement counters of the primary keys. -/
structure DB where
  resources : List Resource
  events : List Event
  users : List User
  registrations : List Registration
  admins : List Int
  nextResourceId : Nat
  nextEventId : Nat
  nextUserId : Nat
  nextRegId : Nat
deriving DecidableEq, Repr

/-- The dedup predicate of `Database.add_event`: the
`filter_by(resource_id=…, title=…, event_date=…)` row filter. -/
def eventTripleMatch (rid : Nat) (title : String) (date : ℚ) (e : Event) : Bool :=
  decide (e.resource_id = rid ∧ e.title = title ∧ e.event_date = date)

/-- `Database.add_event(resource_id, title, description, event_date,
location=None, url=None)`: queries for an existing row with the same
(resource_id, title, event_date) triple; if one exists returns `None`
and changes nothing, otherwise inserts a fresh row (with
`notified=False`) and returns it. -/
def add_event (db : DB) (rid : Nat) (title : String) (descr : Option String)
    (date : ℚ) (location : Option String) (url : Option String) :
    Option Event × DB :=
  match db.events.find? (eventTripleMatch rid title date) with
  | some _ => (none, db)
  | none =>
    let ev : Event :=
      { id := db.nextEventId, resource_id := rid, title := title,
        description := descr, event_date := date, location := location,
        url := url, notified := false }
    (some ev, { db with events := db.events ++ [ev],
                        nextEventId := db.nextEventId + 1 })

/-- `Database.add_admin(telegram_id)`: returns `False` and changes
nothing when the id is already an admin, else records it. -/
def add_admin (db : DB) (tid : Int) : Bool × DB :=
  match db.admins.find? (fun a => decide (a = tid)) with
  | some _ => (false, db)
  | none => (true, { db with admins := db.admins ++ [tid] })

/-- Python truthiness of an optional string argument: `None` and the
empty string are falsy, which is what the `if username:` guards of
`get_or_create_user` test. -/
def truthyStr : Option String → Bool
  | none => false
  | some s => !s.isEmpty

/-- `Database.get_or_create_user(telegram_id, username=None,
first_name=None, last_name=None)`: inserts a fresh row (subscribed by
default) when no row carries the telegram id; otherwise overwrites each
display field only under its `if <arg>:` truthiness guard, leaving
`is_subscribed` untouched. Returns the persisted row. -/
def get_or_create_user (db : DB) (tid : Int)
    (username first_name last_name : Option String) : User × DB :=
  match db.users.find? (fun u => decide (u.telegram_id = tid)) with
  | none =>
    let u : User :=
      { id := db.nextUserId, telegram_id := tid, username := username,
        first_name := first_name, last_name := last_name,
        is_subscribed := true }
    (u, { db with users := db.users ++ [u],
                  nextUserId := db.nextUserId + 1 })
  | some u =>
    let u2 : User :=
      { u with
        username := if truthyStr username then username else u.username,
        first_name := if truthyStr first_name then first_name
                      else u.first_name,
        last_name := if truthyStr last_name then last_name
                     else u.last_name }
    let newUsers :=
      db.users.map (fun v => if decide (v.telegram_id = tid) then u2 else v)
    (u2, { db with users := newUsers })

/-- `Database.add_resource(name, url, resource_type)`. -/
def add_resource (db : DB) (name url rtype : String) : Resource × DB :=
  let r : Resource :=
    { id := db.nextResourceId, name := name, url := url, type := rtype,
      is_active := true }
  (r, { db with resources := db.resources ++ [r],
                nextResourceId := db.nextResourceId + 1 })

/-- `Database.mark_event_notified(event_id)`: sets `notified=True` on
the row with that id (no-op when absent). -/
def mark_event_notified (db : DB) (eid : Nat) : DB :=
  let newEvents :=
    db.events.map
      (fun e => if decide (e.id = eid) then { e with notified := true }
                else e)
  { db with events := newEvents }

/-- `Database.register_for_event(user_id, event_id)`: returns `False`
and changes nothing when the (user, event) pair is already registered;
else inserts a row with both reminder flags `False`. -/
def register_for_event (db : DB) (uid eid : Nat) : Bool × DB :=
  match db.registrations.find?
      (fun r => decide (r.user_id = uid ∧ r.event_id = eid)) with
  | some _ => (false, db)
  | none =>
    (true, { db with
      registrations := db.registrations ++
        [{ id := db.nextRegId, user_id := uid, event_id := eid,
           reminder_1day_sent := false, reminder_1hour_sent := false }],
      nextRegId := db.nextRegId + 1 })

/-- The `join(Event)` lookup: the `Event` row a registration's
`event_id` foreign key points at. -/
def findEventById (evs : List Event) (eid : Nat) : Option Event :=
  evs.find? (fun e => decide (e.id = eid))

/-- `Database.get_registrations_for_reminder(hours_before=24)`: the SQL
query keeps registrations joined to an event with
`now < event_date <= now + hours_before`; the python loop then appends
a registration when `hours_before == 24` and its 24h flag is unsent, or
`hours_before == 1` and its 1h flag is unsent.  `now` (in the source
`datetime.utcnow()`) is passed explicitly. -/
def get_registrations_for_reminder (db : DB) (hours_before : ℚ)
    (now : ℚ) : List Registration :=
  let target_time := now + hours_before
  let registrations := db.registrations.filter (fun r =>
    match findEventById db.events r.event_id with
    | some e => decide (e.event_date ≤ target_time ∧ now < e.event_date)
    | none => false)
  registrations.filter (fun r =>
    if hours_before = 24 then !r.reminder_1day_sent
    else if hours_before = 1 then !r.reminder_1hour_sent
    else false)

/-- `Database.mark_reminder_sent(registration_id, reminder_type)`: on
the row with that id, `'1day'` sets the 24h flag, `'1hour'` sets the 1h
flag, any other type changes nothing. -/
def mark_reminder_sent (db : DB) (regid : Nat) (rtype : String) : DB :=
  let newRegs :=
    db.registrations.map (fun r =>
      if decide (r.id = regid) then
        if rtype = "1day" then { r with reminder_1day_sent := true }
        else if rtype = "1hour" then { r with reminder_1hour_sent := true }
        else r
      else r)
  { db with registrations := newRegs }

/-- `Database.update_user_subscription(telegram_id, is_subscribed)`. -/
def update_user_subscription (db : DB) (tid : Int) (sub : Bool) :
    Bool × DB :=
  match db.users.find? (fun u => decide (u.telegram_id = tid)) with
  | some _ =>
    let newUsers :=
      db.users.map (fun v =>
        if decide (v.telegram_id = tid) then { v with is_subscribed := sub }
        else v)
    (true, { db with users := newUsers })
  | none => (false, db)

/-- One call to any state-mutating operation of the `Database` class
(the remaining methods are read-only queries and leave the store
untouched). -/
inductive Op where
  | addAdmin (tid : Int)
  | getOrCreateUser (tid : Int) (username first_name last_name : Option String)
  | addResource (name url rtype : String)
  | addEvent (rid : Nat) (title : String) (descr : Option String)
      (date : ℚ) (location url : Option String)
  | markEventNotified (eid : Nat)
  | registerForEvent (uid eid : Nat)
  | markReminderSent (regid : Nat) (rtype : String)
  | updateUserSubscription (tid : Int) (sub : Bool)

/-- The store-state transition of one operation. -/
def Op.apply : Op → DB → DB
  | .addAdmin tid, db => (add_admin db tid).2
  | .getOrCreateUser tid u f l, db => (get_or_create_user db tid u f l).2
  | .addResource n u t, db => (add_resource db n u t).2
  | .addEvent rid ti d da lo u, db => (add_event db rid ti d da lo u).2
  | .markEventNotified eid, db => mark_event_notified db eid
  | .registerForEvent uid eid, db => (register_for_event db uid eid).2
  | .markReminderSent rg t, db => mark_reminder_sent db rg t
  | .updateUserSubscription tid s, db => (update_user_subscription db tid s).2

/-- Python `str.lower` restricted to the alphabets the keyword sets
use: ASCII (via `Char.toLower`) plus the Cyrillic uppercase block А–Я
and Ё, which `Char.toLower` leaves unchanged but python lowercases. -/
def pyLower (c : Char) : Char :=
  if 0x410 ≤ c.toNat ∧ c.toNat ≤ 0x42F then Char.ofNat (c.toNat + 0x20)
  else if c.toNat = 0x401 then Char.ofNat 0x451
  else c.toLower

/-- `keyword in text` on python strings: the keyword occurs as a
contiguous substring of the text. -/
def substrIn (kw text : List Char) : Bool :=
  text.tails.any (fun t => kw.isPrefixOf t)

/-- The positive keyword list of
`EventClassifier._classify_with_keywords`. -/
def positive_keywords : List (List Char) :=
  ["стартап".data, "startup".data, "предприниматель".data,
   "entrepreneur".data, "бизнес".data, "business".data,
   "инвестиции".data, "investment".data, "венчур".data, "venture".data,
   "акселератор".data, "accelerator".data, "инкубатор".data,
   "incubator".data, "питч".data, "pitch".data, "демо-день".data,
   "demo day".data, "нетворкинг".data, "networking".data, "saas".data,
   "b2b".data, "технологии для бизнеса".data,
   "бизнес-конференция".data, "бизнес-митап".data,
   "entrepreneurship".data]

/-- The negative keyword list of
`EventClassifier._classify_with_keywords`. -/
def negative_keywords : List (List Char) :=
  ["дизайн".data, "design".data, "ui/ux".data,
   "графический дизайн".data, "иллюстрация".data, "фотография".data,
   "photography".data, "искусство".data, "art".data, "творчество".data,
   "хобби".data, "hobby".data, "личное развитие".data, "йога".data,
   "медитация".data]

/-- `EventClassifier._classify_with_keywords(text)`: lowercase the
text, count positive and negative keyword hits; with no hit at all
report `(False, 0.3)`, else relevance is `positive > negative and
positive > 0` with confidence `positive / (positive + negative)`. -/
def classify_with_keywords (text : List Char) : Bool × ℚ :=
  let text_lower := text.map pyLower
  let positive_count :=
    positive_keywords.countP (fun kw => substrIn kw text_lower)
  let negative_count :=
    negative_keywords.countP (fun kw => substrIn kw text_lower)
  let total_keywords := positive_count + negative_count
  if total_keywords = 0 then (false, 3/10)
  else
    ((decide (negative_count < positive_count) && decide (0 < positive_count)),
     (positive_count : ℚ) / (total_keywords : ℚ))

/-- The parts of an Ollama `/api/generate` reply that
`_classify_with_ollama` inspects: the HTTP status code; whether the
stripped, upper-cased `response` field starts with "ДА"; and the value
of `float(parts[-1])` over the whitespace-split field — `none` when
there is no second token or the parse raises. -/
structure OllamaReply where
  status : Nat
  startsWithDa : Bool
  lastToken : Option ℚ
deriving DecidableEq, Repr

/-- `EventClassifier._classify_with_ollama(text)`: `reply = none`
models a raised `requests` exception (caught, falls back to the keyword
heuristic); a non-200 status also falls back; otherwise a "ДА" reply
yields `True` with confidence defaulting to 0.9 and a non-"ДА" reply
yields `False` with confidence defaulting to 0.1, the default being
overridden — unclamped — by the trailing token when it parses. -/
def classify_with_ollama (reply : Option OllamaReply)
    (text : List Char) : Bool × ℚ :=
  match reply with
  | none => classify_with_keywords text
  | some r =>
    if r.status ≠ 200 then classify_with_keywords text
    else if r.startsWithDa then (true, r.lastToken.getD (9/10))
    else (false, r.lastToken.getD (1/10))

/-- `EventClassifier._classify_with_local_model(text)`: `none` models a
raised exception (caught, keyword fallback); otherwise the zero-shot
pipeline's top label is relevant or not (`top_label in
candidate_labels[:2]`) with score `top_score`, and the confidence is
the score when relevant, else `1.0 - top_score`. -/
def classify_with_local_model (outcome : Option (Bool × ℚ))
    (text : List Char) : Bool × ℚ :=
  match outcome with
  | none => classify_with_keywords text
  | some p => (p.1, if p.1 then p.2 else 1 - p.2)

/-- The classifier backend in effect for one call, carrying the
response the external collaborator would produce on that call:
`use_ollama` set selects `ollama`, else a loaded pipeline selects
`localModel`, else the keyword heuristic. -/
inductive Backend where
  | ollama (reply : Option OllamaReply)
  | localModel (outcome : Option (Bool × ℚ))
  | keywords
deriving DecidableEq, Repr

/-- `EventClassifier.is_relevant_event(title, description="")`: an
empty (or missing) title short-circuits to `(False, 0.0)`; otherwise
the combined text `f"{title}. {description}"`, truncated to 1000
characters, goes to the configured backend. -/
def is_relevant_event (backend : Backend) (title description : List Char) :
    Bool × ℚ :=
  if title.isEmpty then (false, 0)
  else
    let text := (title ++ ('.' :: ' ' :: []) ++ description).take 1000
    match backend with
    | .ollama reply => classify_with_ollama reply text
    | .localModel outcome => classify_with_local_model outcome text
    | .keywords => classify_with_keywords text

/-- All confidence values a backend reply could inject lie in [0,1]. -/
def BackendInRange : Backend → Prop
  | .ollama none => True
  | .ollama (some r) => ∀ c, r.lastToken = some c → 0 ≤ c ∧ c ≤ 1
  | .localModel none => True
  | .localModel (some p) => 0 ≤ p.2 ∧ p.2 ≤ 1
  | .keywords => True

/-- A raw candidate event as produced by `EventParser._extract_event_info`. -/
structure RawEvent where
  title : String
  description : String
  event_date : ℚ
  location : Option String
  url : String
deriving DecidableEq, Repr

/-- `EventParser.parse_resource(resource_url, resource_type)`: the
outcome of the fetch/parse of the resource (`_parse_website`, whose
body is wrapped in `try/except`) is passed in as `websiteResult`;
`Except.error` stands for any exception raised while fetching or
parsing.  `'channel'`-kind resources take the placeholder `pass`
branch; unknown kinds take no branch; both leave `events = []`. -/
def parse_resource (resource_type : String)
    (websiteResult : Except String (List RawEvent)) : List RawEvent :=
  if resource_type = "channel" then []
  else if resource_type = "blog" ∨ resource_type = "website" then
    match websiteResult with
    | .ok evs => evs
    | .error _ => []
  else []

/-- One polling cycle over the monitored resources (the per-resource
loop of the bot's parsing job): each list entry carries a resource's
kind and its fetch/parse outcome, and each resource is one independent
unit of work. -/
def parse_all (resources : List (String × Except String (List RawEvent))) :
    List (List RawEvent) :=
  resources.map (fun rt => parse_resource rt.1 rt.2)

end ITEventsBot

namespace ITEventsBot

/-- Helper: whenever a row matching the (resource, title, date) triple is
present, `add_event` is `(none, db)`. -/
theorem add_event_noop_of_dup (db : DB) (rid : Nat) (title : String)
    (date : ℚ) (descr location url : Option String)
    (hdup : db.events.find? (eventTripleMatch rid title date) ≠ none) :
    add_event db rid title descr date location url = (none, db) := by
  unfold add_event
  cases hcase : db.events.find? (eventTripleMatch rid title date) with
  | none => exact absurd hcase hdup
  | some e => rfl

/-- C1: `add_event` dedup idempotence. Starting from a state with no row
matching the (resourceId, title, date) triple, the first call inserts
and returns the new row and leaves exactly one matching row, and a
second call with the same triple — arbitrary other arguments — returns
`none` and leaves the state unchanged; and on any state already holding
the triple, `add_event` is a no-op returning `none` regardless of the
other arguments. -/
theorem add_event_dedup_idempotent (db : DB) (rid : Nat) (title : String)
    (date : ℚ) (d1 d2 : Option String) (l1 l2 u1 u2 : Option String) :
    (db.events.countP (eventTripleMatch rid title date) = 0 →
      (∃ e, (add_event db rid title d1 date l1 u1).1 = some e ∧
        e.resource_id = rid ∧ e.title = title ∧ e.event_date = date) ∧
      ((add_event db rid title d1 date l1 u1).2).events.countP
          (eventTripleMatch rid title date) = 1 ∧
      add_event ((add_event db rid title d1 date l1 u1).2)
          rid title d2 date l2 u2 =
        (none, (add_event db rid title d1 date l1 u1).2)) ∧
    (db.events.countP (eventTripleMatch rid title date) ≠ 0 →
      add_event db rid title d1 date l1 u1 = (none, db)) := by
  constructor
  · intro hfresh
    have hnone : db.events.find? (eventTripleMatch rid title date) = none := by
      rw [List.find?_eq_none]
      intro e he hcontra
      have : 0 < db.events.countP (eventTripleMatch rid title date) :=
        List.countP_pos_iff.mpr ⟨e, he, hcontra⟩
      omega
    refine ⟨?_, ?_, ?_⟩
    · simp only [add_event, hnone]
      exact ⟨_, rfl, rfl, rfl, rfl⟩
    · simp only [add_event, hnone]
      simp [List.countP_append, hfresh, List.countP_cons, eventTripleMatch]
    · apply add_event_noop_of_dup
      simp only [add_event, hnone]
      rw [List.find?_append, hnone]
      simp [eventTripleMatch]
  · intro hdup
    apply add_event_noop_of_dup
    intro h
    rw [List.find?_eq_none] at h
    have : db.events.countP (eventTripleMatch rid title date) = 0 :=
      List.countP_eq_zero.mpr h
    exact hdup this

/-- Witness for C1: the fresh branch at an empty store and the duplicate
branch at the store that results from the first insert. -/
theorem add_event_dedup_idempotent_witness :
    ((∃ e, (add_event ⟨[], [], [], [], [], 1, 1, 1, 1⟩ 1 "meetup"
        (some "d") 7 none none).1 = some e ∧
      e.resource_id = 1 ∧ e.title = "meetup" ∧ e.event_date = 7) ∧
    ((add_event ⟨[], [], [], [], [], 1, 1, 1, 1⟩ 1 "meetup"
        (some "d") 7 none none).2).events.countP
        (eventTripleMatch 1 "meetup" 7) = 1 ∧
    add_event ((add_event ⟨[], [], [], [], [], 1, 1, 1, 1⟩ 1 "meetup"
        (some "d") 7 none none).2) 1 "meetup" (some "other") 7
        (some "loc") (some "u") =
      (none, (add_event ⟨[], [], [], [], [], 1, 1, 1, 1⟩ 1 "meetup"
        (some "d") 7 none none).2)) ∧
    (add_event ⟨[], [⟨5, 1, "meetup", none, 7, none, none, false⟩], [],
        [], [], 1, 6, 1, 1⟩ 1 "meetup" (some "x") 7 none none =
      (none, ⟨[], [⟨5, 1, "meetup", none, 7, none, none, false⟩], [],
        [], [], 1, 6, 1, 1⟩)) :=
  ⟨(add_event_dedup_idempotent ⟨[], [], [], [], [], 1, 1, 1, 1⟩ 1 "meetup" 7
      (some "d") (some "other") none (some "loc") none (some "u")).1
    (by decide),
   (add_event_dedup_idempotent
      ⟨[], [⟨5, 1, "meetup", none, 7, none, none, false⟩], [],
        [], [], 1, 6, 1, 1⟩ 1 "meetup" 7
      (some "x") none none none none none).2
    (by decide)⟩

/-- C9: with an empty (or missing — python `if not title:`) title,
`is_relevant_event` returns `(False, 0.0)` whatever the description and
whatever backend — and backend response — is configured: no backend and
no keyword count influences the result. -/
theorem is_relevant_event_empty_title (backend : Backend)
    (descr : List Char) :
    is_relevant_event backend [] descr = (false, 0) := by
  simp [is_relevant_event]

/-- C5: `parse_resource` is total (it is a Lean function, hence never
raises); a `'channel'`-kind resource yields `[]` whatever the fetch
outcome; any fetch/parse error yields `[]` for that resource whatever
its kind; and in a polling cycle an erroring resource contributes `[]`
while every other resource's outcome is exactly what it would be
without it. -/
theorem parse_resource_error_isolated (rt t2 m : String)
    (res : Except String (List RawEvent))
    (xs ys : List (String × Except String (List RawEvent))) :
    parse_resource "channel" res = [] ∧
    parse_resource rt (Except.error m) = [] ∧
    parse_all (xs ++ [(t2, Except.error m)] ++ ys) =
      parse_all xs ++ [[]] ++ parse_all ys := by
  have herr : ∀ s : String, parse_resource s (Except.error m) = [] := by
    intro s
    unfold parse_resource
    by_cases h1 : s = "channel" <;> by_cases h2 : s = "blog" ∨ s = "website" <;>
      simp [h1, h2]
  refine ⟨by simp [parse_resource], herr rt, ?_⟩
  simp [parse_all, herr t2]

/-- C10: for any threshold other than 24 and 1 the flag loop of
`get_registrations_for_reminder` appends nothing — the result is empty
even when registrations exist whose event date lies inside the window
`now < date ≤ now + thresholdHours`. -/
theorem get_registrations_for_reminder_other_threshold (db : DB)
    (h now : ℚ) (h24 : h ≠ 24) (h1 : h ≠ 1) :
    get_registrations_for_reminder db h now = [] := by
  unfold get_registrations_for_reminder
  simp [h24, h1]

/-- Witness for C10 at threshold 5: the store holds a registration for
an event 2 hours away — inside the window `now < date ≤ now + 5` — with
both flags unsent, yet the result is empty. -/
theorem get_registrations_for_reminder_other_threshold_witness :
    ((5 : ℚ) ≠ 24 ∧ (5 : ℚ) ≠ 1 ∧
      (0 : ℚ) < 2 ∧ (2 : ℚ) ≤ 0 + 5) ∧
    get_registrations_for_reminder
      ⟨[], [⟨1, 1, "e", none, 2, none, none, false⟩], [],
       [⟨1, 1, 1, false, false⟩], [], 2, 2, 1, 2⟩ 5 0 = [] :=
  ⟨by norm_num,
   get_registrations_for_reminder_other_threshold
     ⟨[], [⟨1, 1, "e", none, 2, none, none, false⟩], [],
      [⟨1, 1, 1, false, false⟩], [], 2, 2, 1, 2⟩ 5 0
     (by norm_num) (by norm_num)⟩

/-- C3: the keyword heuristic is a function of the lowercased input
text alone; with no positive and no negative keyword hit it returns
`(False, 0.3)`; otherwise it returns relevance
`positiveCount > negativeCount ∧ positiveCount > 0` and confidence
`positiveCount / (positiveCount + negativeCount)`. -/
theorem classify_with_keywords_spec (t1 t2 text : List Char) :
    (t1.map pyLower = t2.map pyLower →
      classify_with_keywords t1 = classify_with_keywords t2) ∧
    (positive_keywords.countP (fun kw => substrIn kw (text.map pyLower)) = 0 ∧
     negative_keywords.countP (fun kw => substrIn kw (text.map pyLower)) = 0 →
      classify_with_keywords text = (false, 3/10)) ∧
    (positive_keywords.countP (fun kw => substrIn kw (text.map pyLower)) +
       negative_keywords.countP (fun kw => substrIn kw (text.map pyLower))
         ≠ 0 →
      classify_with_keywords text =
        (decide (negative_keywords.countP
              (fun kw => substrIn kw (text.map pyLower)) <
            positive_keywords.countP
              (fun kw => substrIn kw (text.map pyLower))) &&
         decide (0 < positive_keywords.countP
              (fun kw => substrIn kw (text.map pyLower))),
         (positive_keywords.countP
              (fun kw => substrIn kw (text.map pyLower)) : ℚ) /
           ((positive_keywords.countP
               (fun kw => substrIn kw (text.map pyLower)) : ℚ) +
            (negative_keywords.countP
               (fun kw => substrIn kw (text.map pyLower)) : ℚ)))) := by
  refine ⟨?_, ?_, ?_⟩
  · intro h
    unfold classify_with_keywords
    rw [h]
  · rintro ⟨hp, hn⟩
    simp [classify_with_keywords, hp, hn]
  · intro h
    simp only [classify_with_keywords]
    rw [if_neg h]
    push_cast
    rfl

/-- Witness for C3: the lowercase-invariance at a pair of texts that
lower to the same form, the no-hit branch at "Privet", and the counting
branch at "Стартап и дизайн" (one positive and one negative hit, so
not-relevant with confidence 1/2). -/
theorem classify_with_keywords_spec_witness :
    ("StArTuP".data.map pyLower = "startup".data.map pyLower ∧
      classify_with_keywords "StArTuP".data =
        classify_with_keywords "startup".data) ∧
    (classify_with_keywords "Privet".data = (false, 3/10)) ∧
    (classify_with_keywords "Стартап и дизайн".data = (false, 1/2)) := by
  refine ⟨⟨by decide, ?_⟩, ?_, ?_⟩
  · exact (classify_with_keywords_spec "StArTuP".data "startup".data []).1
      (by decide)
  · have h := (classify_with_keywords_spec [] [] "Privet".data).2.1
      (by decide)
    exact h
  · have h := (classify_with_keywords_spec [] []
      "Стартап и дизайн".data).2.2 (by decide)
    have hpos : positive_keywords.countP
        (fun kw => substrIn kw ("Стартап и дизайн".data.map pyLower)) = 1 := by
      decide
    have hneg : negative_keywords.countP
        (fun kw => substrIn kw ("Стартап и дизайн".data.map pyLower)) = 1 := by
      decide
    rw [h, hpos, hneg]
    norm_num

/-- Helper: the SQL window filter of `get_registrations_for_reminder`
holds exactly when the joined event exists and its date lies in
`(now, tt]`. -/
theorem reminder_window_iff (evs : List Event) (tt now : ℚ) (eid : Nat) :
    ((match findEventById evs eid with
      | some e => decide (e.event_date ≤ tt ∧ now < e.event_date)
      | none => false) = true) ↔
    (∃ e, findEventById evs eid = some e ∧
      now < e.event_date ∧ e.event_date ≤ tt) := by
  cases hfind : findEventById evs eid with
  | none => simp
  | some e =>
    simp only [decide_eq_true_eq, Option.some.injEq]
    constructor
    · rintro ⟨hle, hlt⟩; exact ⟨e, rfl, hlt, hle⟩
    · rintro ⟨e2, he2, hlt, hle⟩; cases he2; exact ⟨hle, hlt⟩

/-- C2: `get_registrations_for_reminder` at thresholds 24 and 1 returns
exactly the registrations whose joined event date lies in
`(now, now + threshold]` and whose corresponding flag (24h flag at
threshold 24, 1h flag at threshold 1) is still unsent; a registration
for an event exactly 23 hours away is included by the 24-hour check and
excluded by the 1-hour check. -/
theorem get_registrations_for_reminder_spec (db : DB) (now : ℚ)
    (r : Registration) :
    (r ∈ get_registrations_for_reminder db 24 now ↔
      r ∈ db.registrations ∧
      (∃ e, findEventById db.events r.event_id = some e ∧
        now < e.event_date ∧ e.event_date ≤ now + 24) ∧
      r.reminder_1day_sent = false) ∧
    (r ∈ get_registrations_for_reminder db 1 now ↔
      r ∈ db.registrations ∧
      (∃ e, findEventById db.events r.event_id = some e ∧
        now < e.event_date ∧ e.event_date ≤ now + 1) ∧
      r.reminder_1hour_sent = false) ∧
    (∀ e, findEventById db.events r.event_id = some e →
      e.event_date = now + 23 → r ∈ db.registrations →
      r.reminder_1day_sent = false →
      r ∈ get_registrations_for_reminder db 24 now ∧
      r ∉ get_registrations_for_reminder db 1 now) := by
  have hiff : ∀ h : ℚ, r ∈ get_registrations_for_reminder db h now ↔
      (r ∈ db.registrations ∧
        (∃ e, findEventById db.events r.event_id = some e ∧
          now < e.event_date ∧ e.event_date ≤ now + h)) ∧
      ((if h = 24 then !r.reminder_1day_sent
        else if h = 1 then !r.reminder_1hour_sent
        else false) = true) := by
    intro h
    unfold get_registrations_for_reminder
    simp only [List.mem_filter, reminder_window_iff]
  have h24 : r ∈ get_registrations_for_reminder db 24 now ↔
      r ∈ db.registrations ∧
      (∃ e, findEventById db.events r.event_id = some e ∧
        now < e.event_date ∧ e.event_date ≤ now + 24) ∧
      r.reminder_1day_sent = false := by
    rw [hiff 24, if_pos rfl]
    simp [and_assoc]
  have h1 : r ∈ get_registrations_for_reminder db 1 now ↔
      r ∈ db.registrations ∧
      (∃ e, findEventById db.events r.event_id = some e ∧
        now < e.event_date ∧ e.event_date ≤ now + 1) ∧
      r.reminder_1hour_sent = false := by
    rw [hiff 1, if_neg (by norm_num), if_pos rfl]
    simp [and_assoc]
  refine ⟨h24, h1, ?_⟩
  intro e hfind hdate hmem hflag
  constructor
  · exact h24.mpr ⟨hmem, ⟨e, hfind, by rw [hdate]; constructor <;> linarith⟩,
      hflag⟩
  · intro hin
    rcases (h1.mp hin).2.1 with ⟨e2, hfind2, hlt, hle⟩
    rw [hfind] at hfind2
    cases hfind2
    rw [hdate] at hle
    linarith

/-- Witness for C2's scenario conjunct: one registration, one event 23
hours away (`now = 0`), 24h flag unsent: the 24-hour query returns it,
the 1-hour query does not. -/
theorem get_registrations_for_reminder_spec_witness :
    ⟨1, 1, 1, false, false⟩ ∈ get_registrations_for_reminder
      ⟨[], [⟨1, 1, "e", none, 23, none, none, false⟩], [],
       [⟨1, 1, 1, false, false⟩], [], 2, 2, 1, 2⟩ 24 0 ∧
    ⟨1, 1, 1, false, false⟩ ∉ get_registrations_for_reminder
      ⟨[], [⟨1, 1, "e", none, 23, none, none, false⟩], [],
       [⟨1, 1, 1, false, false⟩], [], 2, 2, 1, 2⟩ 1 0 :=
  (get_registrations_for_reminder_spec
      ⟨[], [⟨1, 1, "e", none, 23, none, none, false⟩], [],
       [⟨1, 1, 1, false, false⟩], [], 2, 2, 1, 2⟩ 0
      ⟨1, 1, 1, false, false⟩).2.2
    ⟨1, 1, "e", none, 23, none, none, false⟩ rfl (by norm_num)
    (by simp) rfl

/-- C8: `mark_reminder_sent` leaves every other table untouched; a
registration row with a different id is unchanged; on the row with the
given id, kind `'1day'` sets exactly the 24h flag and kind `'1hour'`
sets exactly the 1h flag — the record updates keep every other field,
the other flag included, as it was — and the call is idempotent for
every kind. -/
theorem mark_reminder_sent_spec (db : DB) (regid : Nat) (t : String)
    (r : Registration) :
    ((mark_reminder_sent db regid t).events = db.events ∧
     (mark_reminder_sent db regid t).users = db.users ∧
     (mark_reminder_sent db regid t).resources = db.resources ∧
     (mark_reminder_sent db regid t).admins = db.admins) ∧
    (r ∈ db.registrations → r.id ≠ regid →
      r ∈ (mark_reminder_sent db regid t).registrations) ∧
    (r ∈ db.registrations → r.id = regid →
      { r with reminder_1day_sent := true } ∈
        (mark_reminder_sent db regid "1day").registrations ∧
      { r with reminder_1hour_sent := true } ∈
        (mark_reminder_sent db regid "1hour").registrations) ∧
    mark_reminder_sent (mark_reminder_sent db regid t) regid t =
      mark_reminder_sent db regid t := by
  refine ⟨⟨rfl, rfl, rfl, rfl⟩, ?_, ?_, ?_⟩
  · intro hmem hne
    exact List.mem_map.mpr ⟨r, hmem, by simp [hne]⟩
  · intro hmem hid
    constructor
    · exact List.mem_map.mpr ⟨r, hmem, by simp [hid]⟩
    · exact List.mem_map.mpr ⟨r, hmem, by simp [hid]⟩
  · simp only [mark_reminder_sent, List.map_map]
    congr 1
    apply List.map_congr_left
    intro a _
    by_cases hid : a.id = regid
    · by_cases hd : t = "1day"
      · simp [Function.comp, hid, hd]
      · by_cases hh : t = "1hour"
        · simp [Function.comp, hid, hd, hh]
        · simp [Function.comp, hid, hd, hh]
    · simp [Function.comp, hid]

/-- Witness for C8 at a concrete store of two registrations: row 1 gets
its 24h flag (and, under kind `'1hour'`, its 1h flag) set with all
other fields intact, row 2 is untouched. -/
theorem mark_reminder_sent_spec_witness :
    (⟨2, 7, 8, false, false⟩ ∈ (mark_reminder_sent
      ⟨[], [], [], [⟨1, 5, 6, false, false⟩, ⟨2, 7, 8, false, false⟩],
       [], 1, 1, 1, 3⟩ 1 "1day").registrations) ∧
    (⟨1, 5, 6, true, false⟩ ∈ (mark_reminder_sent
      ⟨[], [], [], [⟨1, 5, 6, false, false⟩, ⟨2, 7, 8, false, false⟩],
       [], 1, 1, 1, 3⟩ 1 "1day").registrations ∧
     ⟨1, 5, 6, false, true⟩ ∈ (mark_reminder_sent
      ⟨[], [], [], [⟨1, 5, 6, false, false⟩, ⟨2, 7, 8, false, false⟩],
       [], 1, 1, 1, 3⟩ 1 "1hour").registrations) :=
  ⟨(mark_reminder_sent_spec
      ⟨[], [], [], [⟨1, 5, 6, false, false⟩, ⟨2, 7, 8, false, false⟩],
       [], 1, 1, 1, 3⟩ 1 "1day" ⟨2, 7, 8, false, false⟩).2.1
     (by simp) (by decide),
   (mark_reminder_sent_spec
      ⟨[], [], [], [⟨1, 5, 6, false, false⟩, ⟨2, 7, 8, false, false⟩],
       [], 1, 1, 1, 3⟩ 1 "1day" ⟨1, 5, 6, false, false⟩).2.2.1
     (by simp) rfl⟩

/-- Helper: an already-notified event row is a fixed point of the
per-row update of `mark_event_notified`. -/
theorem mark_notified_fix (eid : Nat) (e : Event) (h : e.notified = true) :
    (if decide (e.id = eid) then { e with notified := true } else e) = e := by
  by_cases hid : e.id = eid
  · cases e; simp_all
  · simp [hid]

/-- C4: every event row carrying the given id is notified after
`mark_event_notified`; the call is idempotent (the whole store state is
identical after one call and after two); and no mutating store
operation — `Op` ranges over all of them — ever turns a notified event
row back: the row survives unchanged, `notified=true` included. -/
theorem mark_event_notified_write_once (db : DB) (eid : Nat) (op : Op)
    (e : Event) :
    (∀ e2, e2 ∈ (mark_event_notified db eid).events → e2.id = eid →
      e2.notified = true) ∧
    mark_event_notified (mark_event_notified db eid) eid =
      mark_event_notified db eid ∧
    (e ∈ db.events → e.notified = true → e ∈ (Op.apply op db).events) := by
  refine ⟨?_, ?_, ?_⟩
  · intro e2 hmem hid
    rcases List.mem_map.mp hmem with ⟨a, _, ha⟩
    by_cases h : a.id = eid
    · rw [← ha]; simp [h]
    · rw [← ha] at hid
      simp [h] at hid
  · simp only [mark_event_notified, List.map_map]
    congr 1
    apply List.map_congr_left
    intro a _
    by_cases h : a.id = eid <;> simp [Function.comp, h]
  · intro hmem hnot
    cases op with
    | addAdmin tid =>
      simp only [Op.apply, add_admin]
      cases (db.admins.find? (fun a => decide (a = tid))) <;> simpa
    | getOrCreateUser tid u f l =>
      simp only [Op.apply, get_or_create_user]
      cases (db.users.find? (fun u => decide (u.telegram_id = tid))) <;>
        simpa
    | addResource n u t => simpa [Op.apply, add_resource]
    | addEvent rid ti d da lo u =>
      simp only [Op.apply, add_event]
      cases (db.events.find? (eventTripleMatch rid ti da)) <;>
        simp [hmem, List.mem_append_left]
    | markEventNotified eid2 =>
      simp only [Op.apply, mark_event_notified]
      exact List.mem_map.mpr ⟨e, hmem, mark_notified_fix eid2 e hnot⟩
    | registerForEvent uid eid2 =>
      simp only [Op.apply, register_for_event]
      cases (db.registrations.find?
          (fun r => decide (r.user_id = uid ∧ r.event_id = eid2))) <;>
        simpa
    | markReminderSent rg t => simpa [Op.apply, mark_reminder_sent]
    | updateUserSubscription tid s =>
      simp only [Op.apply, update_user_subscription]
      cases (db.users.find? (fun u => decide (u.telegram_id = tid))) <;>
        simpa

/-- Witness for C4: in a store holding a notified event (id 1) and an
unnotified one (id 2), the notified row survives a
`register_for_event` call untouched; and after `mark_event_notified 2`
every row with id 2 is notified. -/
theorem mark_event_notified_write_once_witness :
    (∀ e2, e2 ∈ (mark_event_notified
        ⟨[], [⟨1, 1, "a", none, 5, none, none, true⟩,
              ⟨2, 1, "b", none, 6, none, none, false⟩], [], [], [],
         1, 3, 1, 1⟩ 2).events → e2.id = 2 → e2.notified = true) ∧
    (⟨1, 1, "a", none, 5, none, none, true⟩ : Event) ∈
      (Op.apply (Op.registerForEvent 4 1)
        ⟨[], [⟨1, 1, "a", none, 5, none, none, true⟩,
              ⟨2, 1, "b", none, 6, none, none, false⟩], [], [], [],
         1, 3, 1, 1⟩).events :=
  ⟨(mark_event_notified_write_once
      ⟨[], [⟨1, 1, "a", none, 5, none, none, true⟩,
            ⟨2, 1, "b", none, 6, none, none, false⟩], [], [], [],
       1, 3, 1, 1⟩ 2 (Op.registerForEvent 4 1)
      ⟨1, 1, "a", none, 5, none, none, true⟩).1,
   (mark_event_notified_write_once
      ⟨[], [⟨1, 1, "a", none, 5, none, none, true⟩,
            ⟨2, 1, "b", none, 6, none, none, false⟩], [], [], [],
       1, 3, 1, 1⟩ 2 (Op.registerForEvent 4 1)
      ⟨1, 1, "a", none, 5, none, none, true⟩).2.2
     (by simp) rfl⟩

/-- C7 counterexample: display fields do NOT refresh on every upsert.
On a store whose only user (telegram id 5) has username "alice", an
upsert passing username `""` — a falsy value under python's `if
username:` guard — returns a row still carrying "alice", not the
provided field. -/
theorem get_or_create_user_no_refresh :
    ((get_or_create_user
        ⟨[], [], [⟨0, 5, some "alice", none, none, true⟩], [], [],
         1, 1, 1, 1⟩ 5 (some "") none none).1).username = some "alice" ∧
    (some "alice" : Option String) ≠ some "" := by
  exact ⟨rfl, by simp⟩

/-- C7 amended: `get_or_create_user` creates on first sight with
`is_subscribed = true` and the given display fields; on an existing
user it overwrites each display field only when the provided value is
truthy (non-`None`, non-empty), leaves `is_subscribed` — and every
other row — unchanged, and returns the persisted row, which is stored
in the resulting state. -/
theorem get_or_create_user_upsert (db : DB) (tid : Int)
    (u f l : Option String) :
    (db.users.find? (fun x => decide (x.telegram_id = tid)) = none →
      (get_or_create_user db tid u f l).1 =
        ⟨db.nextUserId, tid, u, f, l, true⟩ ∧
      (get_or_create_user db tid u f l).2.users =
        db.users ++ [⟨db.nextUserId, tid, u, f, l, true⟩] ∧
      (get_or_create_user db tid u f l).1 ∈
        (get_or_create_user db tid u f l).2.users) ∧
    (∀ x, db.users.find? (fun y => decide (y.telegram_id = tid)) = some x →
      (get_or_create_user db tid u f l).1 =
        { x with
          username := if truthyStr u then u else x.username,
          first_name := if truthyStr f then f else x.first_name,
          last_name := if truthyStr l then l else x.last_name } ∧
      ((get_or_create_user db tid u f l).1).is_subscribed =
        x.is_subscribed ∧
      (get_or_create_user db tid u f l).2.users =
        db.users.map (fun v => if decide (v.telegram_id = tid)
          then (get_or_create_user db tid u f l).1 else v) ∧
      (get_or_create_user db tid u f l).1 ∈
        (get_or_create_user db tid u f l).2.users) := by
  constructor
  · intro hnone
    unfold get_or_create_user
    rw [hnone]
    exact ⟨rfl, rfl, by simp⟩
  · intro x hsome
    have hx := List.find?_some hsome
    have hxmem : x ∈ db.users := List.mem_of_find?_eq_some hsome
    unfold get_or_create_user
    rw [hsome]
    refine ⟨rfl, rfl, rfl, ?_⟩
    exact List.mem_map.mpr ⟨x, hxmem, by simp [hx]⟩

/-- Witness for C7 amended: the create branch on an empty store and the
update branch on a store holding "alice" (telegram id 5), upserted with
truthy username "bob". -/
theorem get_or_create_user_upsert_witness :
    ((get_or_create_user ⟨[], [], [], [], [], 1, 1, 4, 1⟩ 5
        (some "bob") none none).1 = ⟨4, 5, some "bob", none, none, true⟩ ∧
      (get_or_create_user ⟨[], [], [], [], [], 1, 1, 4, 1⟩ 5
        (some "bob") none none).2.users =
        [] ++ [⟨4, 5, some "bob", none, none, true⟩] ∧
      (get_or_create_user ⟨[], [], [], [], [], 1, 1, 4, 1⟩ 5
        (some "bob") none none).1 ∈
        (get_or_create_user ⟨[], [], [], [], [], 1, 1, 4, 1⟩ 5
          (some "bob") none none).2.users) ∧
    ((get_or_create_user
        ⟨[], [], [⟨0, 5, some "alice", none, none, false⟩], [], [],
         1, 1, 1, 1⟩ 5 (some "bob") none none).1 =
      { (⟨0, 5, some "alice", none, none, false⟩ : User) with
        username := if truthyStr (some "bob") then some "bob"
                    else some "alice",
        first_name := if truthyStr none then none else none,
        last_name := if truthyStr none then none else none } ∧
     ((get_or_create_user
        ⟨[], [], [⟨0, 5, some "alice", none, none, false⟩], [], [],
         1, 1, 1, 1⟩ 5 (some "bob") none none).1).is_subscribed = false) :=
  ⟨(get_or_create_user_upsert ⟨[], [], [], [], [], 1, 1, 4, 1⟩ 5
      (some "bob") none none).1 rfl,
   ⟨((get_or_create_user_upsert
        ⟨[], [], [⟨0, 5, some "alice", none, none, false⟩], [], [],
         1, 1, 1, 1⟩ 5 (some "bob") none none).2
      ⟨0, 5, some "alice", none, none, false⟩ rfl).1,
    ((get_or_create_user_upsert
        ⟨[], [], [⟨0, 5, some "alice", none, none, false⟩], [], [],
         1, 1, 1, 1⟩ 5 (some "bob") none none).2
      ⟨0, 5, some "alice", none, none, false⟩ rfl).2.1⟩⟩

/-- C6 counterexample: the remote-backend path does not clamp the
confidence it parses out of the reply.  A 200 reply whose text is
`"ДА 5.0"` makes `is_relevant_event` return confidence 5, outside
[0,1]. -/
theorem is_relevant_event_confidence_counterexample :
    is_relevant_event (Backend.ollama (some ⟨200, true, some 5⟩))
      ['a'] [] = (true, 5) ∧ ¬((5 : ℚ) ≤ 1) := by
  exact ⟨rfl, by norm_num⟩

/-- Helper: the keyword heuristic's confidence always lies in [0,1]. -/
theorem classify_with_keywords_confidence (text : List Char) :
    0 ≤ (classify_with_keywords text).2 ∧
    (classify_with_keywords text).2 ≤ 1 := by
  simp only [classify_with_keywords]
  by_cases h : positive_keywords.countP
      (fun kw => substrIn kw (text.map pyLower)) +
    negative_keywords.countP (fun kw => substrIn kw (text.map pyLower)) = 0
  · rw [if_pos h]
    norm_num
  · rw [if_neg h]
    have hpos : (0 : ℚ) <
        ((positive_keywords.countP
            (fun kw => substrIn kw (text.map pyLower)) +
          negative_keywords.countP
            (fun kw => substrIn kw (text.map pyLower)) : ℕ) : ℚ) := by
      exact_mod_cast Nat.pos_of_ne_zero h
    constructor
    · exact div_nonneg (by positivity) (le_of_lt hpos)
    · rw [div_le_one hpos]
      push_cast
      have : (0 : ℚ) ≤ (negative_keywords.countP
          (fun kw => substrIn kw (text.map pyLower)) : ℚ) := by positivity
      linarith

/-- C6 amended: `is_relevant_event` always returns a
(bool, rational) pair; its confidence lies in [0,1] on the empty-title
path and on every keyword-heuristic result (hence on every fallback),
and on the remote/local backend paths whenever each confidence value
the backend reply injects lies in [0,1] — an out-of-range parsed value
is passed through unclamped, which is what the counterexample
exhibits. -/
theorem is_relevant_event_confidence_in_range (backend : Backend)
    (title descr : List Char) (hb : BackendInRange backend) :
    0 ≤ (is_relevant_event backend title descr).2 ∧
    (is_relevant_event backend title descr).2 ≤ 1 := by
  by_cases ht : title.isEmpty
  · simp [is_relevant_event, ht]
  · simp only [is_relevant_event, ht, Bool.false_eq_true, if_false]
    cases backend with
    | ollama reply =>
      cases reply with
      | none => exact classify_with_keywords_confidence _
      | some r =>
        simp only [classify_with_ollama]
        by_cases hs : r.status ≠ 200
        · rw [if_pos hs]
          exact classify_with_keywords_confidence _
        · rw [if_neg hs]
          cases hd : r.startsWithDa with
          | true =>
            rw [if_pos rfl]
            cases hcase : r.lastToken with
            | none => simp; norm_num
            | some c =>
              have := hb c hcase
              simpa using this
          | false =>
            rw [if_neg (by simp)]
            cases hcase : r.lastToken with
            | none => simp; norm_num
            | some c =>
              have := hb c hcase
              simpa using this
    | localModel outcome =>
      cases outcome with
      | none =>
        simp only [classify_with_local_model]
        exact classify_with_keywords_confidence _
      | some p =>
        simp only [classify_with_local_model]
        rcases hb with ⟨h0, h1⟩
        cases hp : p.1 <;> simp <;> constructor <;> linarith
    | keywords => exact classify_with_keywords_confidence _

/-- Witness for C6 amended: the keyword backend (whose
`BackendInRange` side condition is trivially true) on a one-letter
title. -/
theorem is_relevant_event_confidence_in_range_witness :
    0 ≤ (is_relevant_event Backend.keywords ['a'] []).2 ∧
    (is_relevant_event Backend.keywords ['a'] []).2 ≤ 1 :=
  is_relevant_event_confidence_in_range Backend.keywords ['a'] []
    trivial

end ITEventsBot
